import Mathlib

/-!
# Verification of the MODIS LST → air-temperature calibration script

Shallow embedding of `src/code-gee.js`, a Google Earth Engine (GEE) script
that calibrates MODIS land-surface temperature (LST) against ERA5 reanalysis
air temperature for the Pantanal biome over a fixed monthly window.

Modelling conventions:
* Pixel values are rationals (`ℚ`); GEE raster values are floating point, but
  every arithmetic step of the script (multiply by 0.02, subtract 273.15,
  linear blend, round) is exact decimal arithmetic, faithfully represented
  over `ℚ`.
* A raster band is `Pixel → Option ℚ`; `none` is a masked (no-data) pixel.
  GEE elementwise binary operations mask the output wherever either input
  is masked; unary operations preserve the mask.
* Timestamps (`system:time_start` / `system:time_end`) are integers counting
  days since 2010-01-01 (day 0); MODIS MOD11A1 daily images and ERA5 DAILY
  images both carry their day's 00:00 instant as `system:time_start`, so the
  script's date joins reduce to equality of these day numbers.
* `ee.ImageCollection.filterDate(start, end)` keeps images with
  `start ≤ system:time_start < end` — the end date is EXCLUSIVE, per the
  documented GEE semantics of `filterDate`.
* `ee.Filter.date(d)` with a single argument matches images whose
  `system:time_start` equals `d` (the implicit range is one millisecond wide).
* `first()` on an empty collection yields GEE's null element, which the
  subsequent `subtract`/`add` propagate as no-data; the embedding returns
  `Option.none` for the whole calibrated image in that case.
-/

namespace ModisEra5

/-- Pixel index of a raster grid. -/
abbrev Pixel := ℕ

/-- A single raster band: a per-pixel optional value; `none` is a masked
(no-data) pixel. -/
abbrev Raster := Pixel → Option ℚ

/-- GEE `a.add(b)`: pointwise sum, masked where either operand is masked. -/
def rAdd (a b : Raster) : Raster := fun p =>
  match a p, b p with
  | some x, some y => some (x + y)
  | _, _ => none

/-- GEE `a.subtract(b)`: pointwise difference, masked where either operand is
masked. -/
def rSub (a b : Raster) : Raster := fun p =>
  match a p, b p with
  | some x, some y => some (x - y)
  | _, _ => none

/-- GEE `a.subtract(c)` with a scalar constant `c`. -/
def rSubC (a : Raster) (c : ℚ) : Raster := fun p => (a p).map (fun x => x - c)

/-- GEE `a.multiply(c)` with a scalar constant `c`. -/
def rMulC (a : Raster) (c : ℚ) : Raster := fun p => (a p).map (fun x => x * c)

/-- GEE `a.round()`: pointwise rounding to the nearest integer. -/
def rRound (a : Raster) : Raster := fun p => (a p).map (fun x => ((round x : ℤ) : ℚ))

/-- A single-band time-stamped raster observation (`ee.Image` after band
selection), carrying its band name and `system:time_start`/`system:time_end`. -/
structure Image where
  val : Raster
  band : String
  timeStart : ℤ
  timeEnd : ℤ

/-- The scalar form of the calibration blend at one pixel
(`code-gee.js` line 70): `image.add(era5SameDay.subtract(image).multiply(alpha))`,
i.e. `lst + (reanalysis − lst) * alpha`, with `reanalysis` already in Celsius. -/
def calibrate (lst reanalysis alpha : ℚ) : ℚ := lst + (reanalysis - lst) * alpha

/-- The raster-level calibration blend (`code-gee.js` lines 66–70): the ERA5
raster (Kelvin) has 273.15 subtracted, then the blend
`image.add(era5C.subtract(image).multiply(alpha))` is formed pointwise. -/
def blendVal (lstR era5R : Raster) (alpha : ℚ) : Raster :=
  rAdd lstR (rMulC (rSub (rSubC era5R (273.15 : ℚ)) lstR) alpha)

/-- The scalar rescale applied to raw MODIS digital numbers
(`code-gee.js` lines 101–103): `n * 0.02 − 273.15` (Celsius). -/
def rescale (n : ℚ) : ℚ := n * (0.02 : ℚ) - (273.15 : ℚ)

/-- The mathematical inverse of `rescale`, as the spec's round-trip property
refers to it: `n = (c + 273.15) / 0.02`. -/
def rescaleInv (c : ℚ) : ℚ := (c + (273.15 : ℚ)) / (0.02 : ℚ)

/-- **C1.** The calibrator computes `lst + (reanalysis − lst) * alpha` at every
pixel (shown both in scalar form and through the raster blend of line 70, where
the reanalysis input is Kelvin and is first converted to Celsius); for
`alpha ∈ [0,1]` the result lies between `lst` and the reanalysis value
inclusive, at `alpha = 0` it equals `lst`, and at `alpha = 1` it equals the
reanalysis value. -/
theorem calibrate_blend_bounds (lst r a : ℚ) (h0 : 0 ≤ a) (h1 : a ≤ 1) :
    calibrate lst r a = lst + (r - lst) * a ∧
    min lst r ≤ calibrate lst r a ∧
    calibrate lst r a ≤ max lst r ∧
    calibrate lst r 0 = lst ∧
    calibrate lst r 1 = r ∧
    ∀ (lstR era5R : Raster) (p : Pixel),
      lstR p = some lst → era5R p = some (r + 273.15) →
      blendVal lstR era5R a p = some (calibrate lst r a) := by
  refine ⟨rfl, ?_, ?_, by simp [calibrate], by simp [calibrate], ?_⟩
  · unfold calibrate
    rcases le_total lst r with h | h
    · rw [min_eq_left h]
      nlinarith [mul_nonneg (sub_nonneg.mpr h) h0]
    · rw [min_eq_right h]
      nlinarith [mul_le_of_le_one_right (sub_nonneg.mpr h) h1]
  · unfold calibrate
    rcases le_total lst r with h | h
    · rw [max_eq_right h]
      nlinarith [mul_le_of_le_one_right (sub_nonneg.mpr h) h1]
    · rw [max_eq_left h]
      nlinarith [mul_nonneg (sub_nonneg.mpr h) h0]
  · intro lstR era5R p hl he
    simp only [blendVal, rAdd, rMulC, rSub, rSubC, hl, he, Option.map_some]
    norm_num [calibrate]

/-- Witness for C1 at `lst = 20`, `r = 30`, `alpha = 3/5`. -/
theorem calibrate_blend_bounds_witness :
    min (20 : ℚ) 30 ≤ calibrate 20 30 (3/5) ∧ calibrate 20 30 (3/5) ≤ max 20 30 :=
  ⟨(calibrate_blend_bounds 20 30 (3/5) (by norm_num) (by norm_num)).2.1,
   (calibrate_blend_bounds 20 30 (3/5) (by norm_num) (by norm_num)).2.2.1⟩

/-- **C3.** The LST extractor's rescale returns `n * 0.02 − 273.15` for every
digital number `n`; the raster pipeline step
`select('LST_Day_1km').multiply(0.02).subtract(273.15)` applies exactly this
scalar map under the mask; and `rescale` composed with its inverse recovers
`n` exactly (hence within any floating tolerance). -/
theorem rescale_formula_roundtrip (n : ℚ) :
    rescale n = n * (0.02 : ℚ) - (273.15 : ℚ) ∧
    rescaleInv (rescale n) = n ∧
    ∀ (dn : Raster) (p : Pixel),
      rSubC (rMulC dn (0.02 : ℚ)) (273.15 : ℚ) p = (dn p).map rescale := by
  refine ⟨rfl, ?_, ?_⟩
  · unfold rescaleInv rescale
    norm_num
  · intro dn p
    cases h : dn p <;> simp [rSubC, rMulC, rescale, h]

/-- A raw MODIS MOD11A1 observation, with its day and night LST bands (raw
digital numbers) and integer quality-flag bands `QC_Day` / `QC_Night`. -/
structure ModisImage where
  lstDay : Raster
  qcDay : Pixel → ℕ
  lstNight : Raster
  qcNight : Pixel → ℕ
  timeStart : ℤ
  timeEnd : ℤ

/-- `filterDay` (`code-gee.js` lines 36–41): mask from
`QC_Day.bitwiseAnd(1 << 2).eq(0)`, applied with `updateMask`. `updateMask`
masks every band of the image; only the LST band is consumed downstream, so
the embedding records the mask on the day LST band. -/
def filterDay (image : ModisImage) : ModisImage :=
  { image with
    lstDay := fun p =>
      if image.qcDay p &&& (1 <<< 2) = 0 then image.lstDay p else none }

/-- `filterNight` (`code-gee.js` lines 44–49): same mask rule on `QC_Night`,
recorded on the night LST band. -/
def filterNight (image : ModisImage) : ModisImage :=
  { image with
    lstNight := fun p =>
      if image.qcNight p &&& (1 <<< 2) = 0 then image.lstNight p else none }

/-- The unmasked values of a series at a pixel: collection reducers in GEE
aggregate, at each pixel, only the images whose pixel is unmasked. -/
def someValuesAt (series : List Image) (p : Pixel) : List ℚ :=
  series.filterMap (fun i => i.val p)

/-- `ImageCollection.mean()` at one pixel: the arithmetic mean of the unmasked
values; masked (`none`) when no image contributes. -/
def reduceMeanAt (series : List Image) : Raster := fun p =>
  match someValuesAt series p with
  | [] => none
  | v :: vs => some ((v :: vs).sum / ((v :: vs).length : ℚ))

/-- `ImageCollection.min()` at one pixel. -/
def reduceMinAt (series : List Image) : Raster := fun p =>
  match someValuesAt series p with
  | [] => none
  | v :: vs => some (vs.foldl min v)

/-- `ImageCollection.max()` at one pixel. -/
def reduceMaxAt (series : List Image) : Raster := fun p =>
  match someValuesAt series p with
  | [] => none
  | v :: vs => some (vs.foldl max v)

/-- The mask condition `qa.bitwiseAnd(1 << 2).eq(0)` tests exactly bit 2 of
the quality flag. -/
theorem and_bit2_eq_zero (n : ℕ) : (n &&& (1 <<< 2) = 0) ↔ Nat.testBit n 2 = false := by
  have h4 : (1 <<< 2 : ℕ) = 2 ^ 2 := by norm_num [Nat.shiftLeft_eq]
  rw [h4, Nat.and_two_pow]
  cases h : Nat.testBit n 2 <;> simp [h]

theorem someValuesAt_cons_none {i : Image} {p : Pixel} (rest : List Image)
    (h : i.val p = none) : someValuesAt (i :: rest) p = someValuesAt rest p := by
  simp [someValuesAt, List.filterMap_cons, h]

/-- **C4.** The quality filters keep a pixel exactly when bit 2 of its quality
flag is zero: with bit 2 set the pixel becomes masked, with bit 2 clear the
LST value passes through unchanged (for `QC_Day` and `QC_Night` alike); and a
masked pixel is excluded from every downstream aggregate — it contributes
nothing to the pixelwise mean, min or max of any series. -/
theorem quality_bit2_mask (img : ModisImage) (p : Pixel) :
    ((filterDay img).lstDay p =
      if Nat.testBit (img.qcDay p) 2 then none else img.lstDay p) ∧
    ((filterNight img).lstNight p =
      if Nat.testBit (img.qcNight p) 2 then none else img.lstNight p) ∧
    ∀ (i : Image) (rest : List Image), i.val p = none →
      reduceMeanAt (i :: rest) p = reduceMeanAt rest p ∧
      reduceMinAt (i :: rest) p = reduceMinAt rest p ∧
      reduceMaxAt (i :: rest) p = reduceMaxAt rest p := by
  refine ⟨?_, ?_, ?_⟩
  · cases h : Nat.testBit (img.qcDay p) 2
    · rw [if_neg (by simp)]
      exact if_pos ((and_bit2_eq_zero _).mpr h)
    · rw [if_pos rfl]
      exact if_neg (fun hc => by simpa [h] using (and_bit2_eq_zero _).mp hc)
  · cases h : Nat.testBit (img.qcNight p) 2
    · rw [if_neg (by simp)]
      exact if_pos ((and_bit2_eq_zero _).mpr h)
    · rw [if_pos rfl]
      exact if_neg (fun hc => by simpa [h] using (and_bit2_eq_zero _).mp hc)
  · intro i rest h
    refine ⟨?_, ?_, ?_⟩ <;>
      simp only [reduceMeanAt, reduceMinAt, reduceMaxAt, someValuesAt_cons_none rest h]

/-- A MODIS observation whose day pixel is flagged (bit 2 of `QC_Day` set)
and whose night pixel is clean (`QC_Night = 0`). -/
def demoModis : ModisImage :=
  { lstDay := fun _ => some 7500
    qcDay := fun _ => 4
    lstNight := fun _ => some 7400
    qcNight := fun _ => 0
    timeStart := 0
    timeEnd := 1 }

/-- An everywhere-masked single-band observation. -/
def maskedDemo : Image :=
  { val := fun _ => none, band := "LST", timeStart := 0, timeEnd := 1 }

/-- Witness for C4: the flagged day pixel is masked out, the clean night pixel
passes through, and a masked pixel leaves the mean aggregate unchanged. -/
theorem quality_bit2_mask_witness :
    (filterDay demoModis).lstDay 0 = none ∧
    (filterNight demoModis).lstNight 0 = demoModis.lstNight 0 ∧
    reduceMeanAt (maskedDemo :: []) 0 = reduceMeanAt [] 0 := by
  refine ⟨?_, ?_, ((quality_bit2_mask demoModis 0).2.2 maskedDemo [] rfl).1⟩
  · have h := (quality_bit2_mask demoModis 0).1
    simpa [demoModis] using h
  · have h := (quality_bit2_mask demoModis 0).2.1
    simpa [demoModis] using h

/-- **C9.** Reducing a one-element calibrated series returns that element's
raster unchanged, for the pixelwise mean, min and max reducers alike
(`airTemp_pantanal_mean.mean()`, `.min()`, `.max()` on a singleton series):
at unmasked pixels the single value is returned, at masked pixels the result
stays masked. -/
theorem singleton_reduce_identity (img : Image) :
    reduceMeanAt [img] = img.val ∧
    reduceMinAt [img] = img.val ∧
    reduceMaxAt [img] = img.val := by
  refine ⟨funext fun p => ?_, funext fun p => ?_, funext fun p => ?_⟩ <;>
    cases h : img.val p <;>
      simp [reduceMeanAt, reduceMinAt, reduceMaxAt, someValuesAt, h]

/-- 2010-01-01, as a day number (days since 2010-01-01). -/
def date20100101 : ℤ := 0

/-- 2010-01-31, as a day number (days since 2010-01-01). -/
def date20100131 : ℤ := 30

/-- `ImageCollection.filterDate(start, end)`: keeps images with
`start ≤ system:time_start < end` — the end date is exclusive, per the
documented GEE semantics. -/
def filterDate (s e : ℤ) (c : List Image) : List Image :=
  c.filter (fun i => decide (s ≤ i.timeStart) && decide (i.timeStart < e))

/-- `era5_mean` (`code-gee.js` lines 52–54): the ERA5 daily
`mean_2m_air_temperature` series restricted to the run's date window. The raw
daily series is a parameter of the embedding (it lives on the data platform). -/
def era5_mean (raw : List Image) : List Image :=
  filterDate date20100101 date20100131 raw

/-- `era5_min` (`code-gee.js` lines 56–58). -/
def era5_min (raw : List Image) : List Image :=
  filterDate date20100101 date20100131 raw

/-- `era5_max` (`code-gee.js` lines 60–62). -/
def era5_max (raw : List Image) : List Image :=
  filterDate date20100101 date20100131 raw

/-- `filterDate` on the raw MODIS collection (same GEE semantics). -/
def modisFilterDate (s e : ℤ) (c : List ModisImage) : List ModisImage :=
  c.filter (fun i => decide (s ≤ i.timeStart) && decide (i.timeStart < e))

/-- `day_terra` (`code-gee.js` lines 96–106): MODIS daytime observations in
the window, quality-filtered, rescaled to Celsius, renamed to `LST`, with
timestamps preserved. -/
def day_terra (raw : List ModisImage) : List Image :=
  ((modisFilterDate date20100101 date20100131 raw).map filterDay).map
    (fun image =>
      { val := rSubC (rMulC image.lstDay (0.02 : ℚ)) (273.15 : ℚ)
        band := "LST"
        timeStart := image.timeStart
        timeEnd := image.timeEnd })

/-- `night_terra` (`code-gee.js` lines 109–119): the nighttime analogue. -/
def night_terra (raw : List ModisImage) : List Image :=
  ((modisFilterDate date20100101 date20100131 raw).map filterNight).map
    (fun image =>
      { val := rSubC (rMulC image.lstNight (0.02 : ℚ)) (273.15 : ℚ)
        band := "LST"
        timeStart := image.timeStart
        timeEnd := image.timeEnd })

/-- `combined` (`code-gee.js` line 122): merge of day and night series. -/
def combined (raw : List ModisImage) : List Image :=
  day_terra raw ++ night_terra raw

/-- A region acts purely as a spatial mask: the set of pixels inside it. -/
abbrev Region := Pixel → Bool

/-- `image.clip(roi)` (`code-gee.js` lines 125–127): mask pixels outside the
region. -/
def clipImage (r : Region) (image : Image) : Image :=
  { image with val := fun p => if r p then image.val p else none }

/-- `combined_pantanal` (`code-gee.js` lines 125–127). -/
def combined_pantanal (r : Region) (raw : List ModisImage) : List Image :=
  (combined raw).map (clipImage r)

/-- The blend coefficient (`code-gee.js` line 130): `alpha = 0.6`. -/
def alpha : ℚ := 0.6

/-- The date lookup inside each calibrator
(`era5_x.filter(ee.Filter.date(image.date())).first()`): the first image of
the collection whose `system:time_start` equals the LST image's; `none` when
the filtered collection is empty (GEE's `first()` then yields the null
element). -/
def era5MatchFor (col : List Image) (t : ℤ) : Option Image :=
  (col.filter (fun e => e.timeStart == t)).head?

/-- `calibrateLSTtoTAmean` (`code-gee.js` lines 65–73). When the date lookup
is empty the GEE null propagates through `subtract`/`add` as no-data; the
embedding returns `none` for the whole calibrated image — no error value
carrying the missing date exists anywhere in the script. -/
def calibrateLSTtoTAmean (col : List Image) (image : Image) (a : ℚ) : Option Image :=
  match era5MatchFor col image.timeStart with
  | none => none
  | some e => some
      { val := blendVal image.val e.val a
        band := "air_temperature_mean"
        timeStart := image.timeStart
        timeEnd := image.timeEnd }

/-- `calibrateLSTtoTAmin` (`code-gee.js` lines 75–83). -/
def calibrateLSTtoTAmin (col : List Image) (image : Image) (a : ℚ) : Option Image :=
  match era5MatchFor col image.timeStart with
  | none => none
  | some e => some
      { val := blendVal image.val e.val a
        band := "air_temperature_min"
        timeStart := image.timeStart
        timeEnd := image.timeEnd }

/-- `calibrateLSTtoTAmax` (`code-gee.js` lines 85–93). -/
def calibrateLSTtoTAmax (col : List Image) (image : Image) (a : ℚ) : Option Image :=
  match era5MatchFor col image.timeStart with
  | none => none
  | some e => some
      { val := blendVal image.val e.val a
        band := "air_temperature_max"
        timeStart := image.timeStart
        timeEnd := image.timeEnd }

/-- **C7 (amended).** Every series of the run is filtered with
`filterDate('2010-01-01', '2010-01-31')`, whose end date is exclusive: an
observation is kept iff its timestamp `t` satisfies
`2010-01-01 ≤ t < 2010-01-31`, so observations dated 2010-01-31 are excluded. -/
theorem date_window_membership :
    (∀ (raw : List Image) (i : Image),
      i ∈ era5_mean raw ↔
        i ∈ raw ∧ date20100101 ≤ i.timeStart ∧ i.timeStart < date20100131) ∧
    (∀ (raw : List Image) (i : Image),
      i ∈ era5_min raw ↔
        i ∈ raw ∧ date20100101 ≤ i.timeStart ∧ i.timeStart < date20100131) ∧
    (∀ (raw : List Image) (i : Image),
      i ∈ era5_max raw ↔
        i ∈ raw ∧ date20100101 ≤ i.timeStart ∧ i.timeStart < date20100131) ∧
    (∀ (raw : List ModisImage) (m : ModisImage),
      m ∈ modisFilterDate date20100101 date20100131 raw ↔
        m ∈ raw ∧ date20100101 ≤ m.timeStart ∧ m.timeStart < date20100131) := by
  refine ⟨?_, ?_, ?_, ?_⟩ <;>
    · intro raw i
      simp [era5_mean, era5_min, era5_max, filterDate, modisFilterDate,
        List.mem_filter, and_assoc]

/-- An ERA5 observation dated 2010-01-31. -/
def era5Jan31Demo : Image :=
  { val := fun _ => some 300
    band := "mean_2m_air_temperature"
    timeStart := date20100131
    timeEnd := date20100131 + 1 }

/-- A MODIS observation dated 2010-01-31. -/
def modisJan31Demo : ModisImage :=
  { lstDay := fun _ => some 7500
    qcDay := fun _ => 0
    lstNight := fun _ => some 7400
    qcNight := fun _ => 0
    timeStart := date20100131
    timeEnd := date20100131 + 1 }

/-- **C7 counterexample.** Observations dated 2010-01-31 are NOT included:
feeding the windowed loaders a raw series consisting of one observation dated
2010-01-31 yields an empty series, because `filterDate`'s end date is
exclusive. -/
theorem jan31_excluded_from_window :
    era5_mean [era5Jan31Demo] = [] ∧ day_terra [modisJan31Demo] = [] := by
  constructor <;> rfl

/-- **C2.** When an LST observation's date has no exactly matching reanalysis
raster, each of the three calibrators silently returns the propagated no-data
element (`none`): no error value naming the unmatched date is produced
anywhere. -/
theorem calibrate_unmatched_silent (col : List Image) (image : Image) (a : ℚ)
    (h : era5MatchFor col image.timeStart = none) :
    calibrateLSTtoTAmean col image a = none ∧
    calibrateLSTtoTAmin col image a = none ∧
    calibrateLSTtoTAmax col image a = none := by
  refine ⟨?_, ?_, ?_⟩ <;>
    simp [calibrateLSTtoTAmean, calibrateLSTtoTAmin, calibrateLSTtoTAmax, h]

/-- A full raw ERA5 January 2010 series, one image per day 0..31 (the raw
source also has 2010-01-31 and 2010-02-01). -/
def rawEra5Demo : List Image :=
  (List.range 32).map (fun d =>
    { val := fun _ => some 300
      band := "mean_2m_air_temperature"
      timeStart := (d : ℤ)
      timeEnd := (d : ℤ) + 1 })

/-- An LST observation dated 2010-01-31 (day 30), inside MODIS's own window
request but outside the windowed ERA5 series. -/
def lstJan31 : Image :=
  { val := fun _ => some 20
    band := "LST"
    timeStart := date20100131
    timeEnd := date20100131 + 1 }

/-- Witness for C2: calibrating a 2010-01-31 LST observation against the
windowed ERA5 mean series (which lacks that date) yields `none`, silently. -/
theorem calibrate_unmatched_silent_witness :
    calibrateLSTtoTAmean (era5_mean rawEra5Demo) lstJan31 alpha = none :=
  (calibrate_unmatched_silent (era5_mean rawEra5Demo) lstJan31 alpha rfl).1

/-- The blend output is unmasked exactly where the LST input is, provided the
matched reanalysis raster is unmasked at the pixel (ERA5 is a gap-free global
reanalysis; the spec's data model gives reanalysis observations no mask). -/
theorem blendVal_isSome (lstR e5R : Raster) (a : ℚ) (p : Pixel)
    (h : (e5R p).isSome = true) :
    (blendVal lstR e5R a p).isSome = (lstR p).isSome := by
  cases he : e5R p
  · rw [he] at h
    simp at h
  · cases hl : lstR p <;> simp [blendVal, rAdd, rMulC, rSub, rSubC, he, hl]

/-- **C10.** For every LST input raster whose date has a match in each
reanalysis series, and with each matched reanalysis raster defined at every
pixel, the three calibrators produce an output image that is unmasked at
exactly the pixels where the LST input is unmasked, carries the single
renamed band (`air_temperature_mean`/`_min`/`_max`), and retains exactly the
input's `system:time_start` and `system:time_end`. -/
theorem calibrate_preserves_mask_band_time
    (colM colN colX : List Image) (image : Image) (a : ℚ)
    (eM eN eX : Image)
    (hM : era5MatchFor colM image.timeStart = some eM)
    (hTM : ∀ p, (eM.val p).isSome = true)
    (hN : era5MatchFor colN image.timeStart = some eN)
    (hTN : ∀ p, (eN.val p).isSome = true)
    (hX : era5MatchFor colX image.timeStart = some eX)
    (hTX : ∀ p, (eX.val p).isSome = true) :
    ∃ oM oN oX : Image,
      calibrateLSTtoTAmean colM image a = some oM ∧
      (∀ p, (oM.val p).isSome = (image.val p).isSome) ∧
      oM.band = "air_temperature_mean" ∧
      oM.timeStart = image.timeStart ∧ oM.timeEnd = image.timeEnd ∧
      calibrateLSTtoTAmin colN image a = some oN ∧
      (∀ p, (oN.val p).isSome = (image.val p).isSome) ∧
      oN.band = "air_temperature_min" ∧
      oN.timeStart = image.timeStart ∧ oN.timeEnd = image.timeEnd ∧
      calibrateLSTtoTAmax colX image a = some oX ∧
      (∀ p, (oX.val p).isSome = (image.val p).isSome) ∧
      oX.band = "air_temperature_max" ∧
      oX.timeStart = image.timeStart ∧ oX.timeEnd = image.timeEnd := by
  refine ⟨⟨blendVal image.val eM.val a, "air_temperature_mean",
            image.timeStart, image.timeEnd⟩,
          ⟨blendVal image.val eN.val a, "air_temperature_min",
            image.timeStart, image.timeEnd⟩,
          ⟨blendVal image.val eX.val a, "air_temperature_max",
            image.timeStart, image.timeEnd⟩,
    by simp only [calibrateLSTtoTAmean, hM],
    fun p => blendVal_isSome image.val eM.val a p (hTM p), rfl, rfl, rfl,
    by simp only [calibrateLSTtoTAmin, hN],
    fun p => blendVal_isSome image.val eN.val a p (hTN p), rfl, rfl, rfl,
    by simp only [calibrateLSTtoTAmax, hX],
    fun p => blendVal_isSome image.val eX.val a p (hTX p), rfl, rfl, rfl⟩

/-- A gap-free ERA5 mean demo image for day 0. -/
def e5demoMean : Image :=
  { val := fun _ => some 300, band := "mean_2m_air_temperature"
    timeStart := 0, timeEnd := 1 }

/-- A gap-free ERA5 min demo image for day 0. -/
def e5demoMin : Image :=
  { val := fun _ => some 290, band := "minimum_2m_air_temperature"
    timeStart := 0, timeEnd := 1 }

/-- A gap-free ERA5 max demo image for day 0. -/
def e5demoMax : Image :=
  { val := fun _ => some 310, band := "maximum_2m_air_temperature"
    timeStart := 0, timeEnd := 1 }

/-- A clipped, quality-masked LST demo image for day 0: unmasked at pixel 0
only. -/
def lstDemoC10 : Image :=
  { val := fun p => if p = 0 then some 25 else none, band := "LST"
    timeStart := 0, timeEnd := 1 }

/-- Witness for C10 on a concrete one-day configuration. -/
theorem calibrate_preserves_mask_band_time_witness :
    ∃ oM oN oX : Image,
      calibrateLSTtoTAmean [e5demoMean] lstDemoC10 alpha = some oM ∧
      (∀ p, (oM.val p).isSome = (lstDemoC10.val p).isSome) ∧
      oM.band = "air_temperature_mean" ∧
      oM.timeStart = lstDemoC10.timeStart ∧ oM.timeEnd = lstDemoC10.timeEnd ∧
      calibrateLSTtoTAmin [e5demoMin] lstDemoC10 alpha = some oN ∧
      (∀ p, (oN.val p).isSome = (lstDemoC10.val p).isSome) ∧
      oN.band = "air_temperature_min" ∧
      oN.timeStart = lstDemoC10.timeStart ∧ oN.timeEnd = lstDemoC10.timeEnd ∧
      calibrateLSTtoTAmax [e5demoMax] lstDemoC10 alpha = some oX ∧
      (∀ p, (oX.val p).isSome = (lstDemoC10.val p).isSome) ∧
      oX.band = "air_temperature_max" ∧
      oX.timeStart = lstDemoC10.timeStart ∧ oX.timeEnd = lstDemoC10.timeEnd :=
  calibrate_preserves_mask_band_time [e5demoMean] [e5demoMin] [e5demoMax]
    lstDemoC10 alpha e5demoMean e5demoMin e5demoMax
    rfl (fun _ => rfl) rfl (fun _ => rfl) rfl (fun _ => rfl)

/-- A boundary-dataset feature: a polygon tagged with its `Bioma` attribute
(the geometry plays no role in the selection logic). -/
structure Feature where
  bioma : String
  deriving DecidableEq

/-- `roi` (`code-gee.js` lines 21–22): the boundary collection filtered by
`ee.Filter.eq('Bioma', 'Pantanal')` — every feature whose `Bioma` attribute
equals the name, with no uniqueness or non-emptiness check. -/
def roi (dataset : List Feature) : List Feature :=
  dataset.filter (fun f => f.bioma == "Pantanal")

/-- **C5 (evaluation).** The region selector performs no uniqueness or
existence check: on a dataset holding two `Pantanal` boundaries it returns
both and proceeds, and on a dataset with no match it returns the empty
collection and proceeds — it never fails. -/
theorem roi_no_uniqueness_check :
    roi [⟨"Pantanal"⟩, ⟨"Pantanal"⟩, ⟨"Amazonia"⟩] = [⟨"Pantanal"⟩, ⟨"Pantanal"⟩] ∧
    (roi [⟨"Pantanal"⟩, ⟨"Pantanal"⟩, ⟨"Amazonia"⟩]).length = 2 ∧
    roi [⟨"Amazonia"⟩] = [] := by
  refine ⟨?_, ?_, ?_⟩ <;> rfl

/-- `meanAirTemp` (`code-gee.js` line 145): pixelwise mean of the calibrated
mean series. -/
def meanAirTemp (series : List Image) : Raster := reduceMeanAt series

/-- `minAirTemp` (`code-gee.js` line 146). -/
def minAirTemp (series : List Image) : Raster := reduceMinAt series

/-- `maxAirTemp` (`code-gee.js` line 147). -/
def maxAirTemp (series : List Image) : Raster := reduceMaxAt series

/-- `meanAirTempImage` (`code-gee.js` line 185): recomputed pixelwise mean of
the calibrated mean series, with no rounding. -/
def meanAirTempImage (series : List Image) : Raster := reduceMeanAt series

/-- The raster handed to `reduceRegion` for the regional statistics
(`code-gee.js` line 187): `meanAirTempImage`, unrounded. -/
def statsInputRaster (series : List Image) : Raster := meanAirTempImage series

/-- The raster handed to the mean export (`code-gee.js` line 265):
`meanAirTemp.round()`. -/
def exportMeanRaster (series : List Image) : Raster := rRound (meanAirTemp series)

/-- The raster handed to the max export (`code-gee.js` line 275):
`maxAirTemp.round()`. -/
def exportMaxRaster (series : List Image) : Raster := rRound (maxAirTemp series)

/-- The raster handed to the min export (`code-gee.js` line 285):
`minAirTemp.round()`. -/
def exportMinRaster (series : List Image) : Raster := rRound (minAirTemp series)

/-- A calibrated series whose aggregate carries a non-integer value, so that
rounding is observable. -/
def quarterDemo : Image :=
  { val := fun _ => some (1/4), band := "air_temperature_mean"
    timeStart := 0, timeEnd := 1 }

/-- **C6.** Rounding to integer Celsius is applied exactly to the three
exported rasters; the raster on which the regional statistics are computed is
the unrounded monthly mean aggregate — and on a series with a fractional
aggregate the two genuinely differ, so the statistics are not computed on the
rounded raster. -/
theorem rounding_only_for_export :
    (∀ sMean : List Image, statsInputRaster sMean = reduceMeanAt sMean) ∧
    (∀ sMean : List Image, exportMeanRaster sMean = rRound (reduceMeanAt sMean)) ∧
    (∀ sMax : List Image, exportMaxRaster sMax = rRound (reduceMaxAt sMax)) ∧
    (∀ sMin : List Image, exportMinRaster sMin = rRound (reduceMinAt sMin)) ∧
    statsInputRaster [quarterDemo] ≠ rRound (statsInputRaster [quarterDemo]) := by
  refine ⟨fun _ => rfl, fun _ => rfl, fun _ => rfl, fun _ => rfl, fun h => ?_⟩
  have h0 := congrFun h 0
  have hv : statsInputRaster [quarterDemo] 0 = some (1/4) := by
    simp [statsInputRaster, meanAirTempImage, reduceMeanAt, someValuesAt, quarterDemo]
  rw [hv] at h0
  have hr : rRound (statsInputRaster [quarterDemo]) 0 = some 0 := by
    rw [rRound, hv]
    norm_num [round_eq]
  rw [hr] at h0
  exact absurd (Option.some_injective ℚ h0) (by norm_num)

/-- Export description (`code-gee.js` line 266). -/
def descriptionMean : String := "MeanAirTemp_Pantanal_Jan2020"

/-- Export description (`code-gee.js` line 276). -/
def descriptionMax : String := "MaxAirTemp_Pantanal_Jan2020"

/-- Export description (`code-gee.js` line 286). -/
def descriptionMin : String := "MinAirTemp_Pantanal_Jan2020"

/-- The start-date literal of every `filterDate` window in the script
(`code-gee.js` lines 53, 57, 61, 97, 110). -/
def windowStartLiteral : String := "2010-01-01"

/-- **C8 (evaluation).** The three export names follow the
`MeanAirTemp_<Region>_<Period>` scheme with region `Pantanal`, but their
period token is the literal `Jan2020`, which contradicts the run's configured
window: the window's year (the first four characters of its start-date
literal) is `2010`, so the names do not denote January 2010. -/
theorem export_names_use_jan2020 :
    descriptionMean = "MeanAirTemp_Pantanal_" ++ "Jan2020" ∧
    descriptionMax = "MaxAirTemp_Pantanal_" ++ "Jan2020" ∧
    descriptionMin = "MinAirTemp_Pantanal_" ++ "Jan2020" ∧
    windowStartLiteral.take 4 = "2010" ∧
    descriptionMean ≠ "MeanAirTemp_Pantanal_Jan" ++ windowStartLiteral.take 4 := by
  refine ⟨rfl, rfl, rfl, ?_, ?_⟩ <;> decide

end ModisEra5
